import Mathlib

set_option linter.unusedVariables false

/-! Shallow embedding of the sysmon-tui core (src/main.rs).

The embedding covers the data model (`types`), the tiered-cadence metrics
collector (`collector::Collector`), the sparkline history buffer
(`types::SparklineHistory`), and the application state machine
(`app::AppState`: tick handling, one-shot snapshot, continuous-log toggle,
scan-rate presets, key dispatch).

Modelling conventions:
* `u64`/`usize` counters are `Nat` (their sums cannot meaningfully overflow);
  the `u32` tick counter wraps explicitly at `2 ^ 32`, mirroring
  `u32::wrapping_add`.
* `f32` values (CPU percentages, temperatures) are modelled as `ℚ`.
* All OS interaction (sysinfo refreshes, sysfs reads, the clock, file
  creation results) is supplied per call through explicit environment
  records; the environment describes what the OS would report if queried at
  that call.
* File-system writes are recorded as an explicit `Effect` trace returned
  next to the new state; an empty trace means the operation performed no
  file I/O.
-/

/-- Per-core CPU usage entry (`types::CpuCoreUsage`). -/
structure CpuCoreUsage where
  core_id : Nat
  usage_percent : ℚ
deriving DecidableEq

/-- Used/total byte pair for RAM or swap (`types::RamSwapUsage`). -/
structure RamSwapUsage where
  used : Nat
  total : Nat
deriving DecidableEq

/-- Cumulative network counters (`types::NetworkStats`). -/
structure NetworkStats where
  received_bytes : Nat
  transmitted_bytes : Nat
deriving DecidableEq

/-- Cumulative disk I/O counters (`types::DiskIOStats`). -/
structure DiskIOStats where
  read_bytes : Nat
  write_bytes : Nat
deriving DecidableEq

/-- One process-table row (`types::ProcessInfo`); `pid` is an `i32` obtained
from the OS `u32` pid by two's-complement conversion. -/
structure ProcessInfo where
  pid : Int
  name : String
  cpu_percent : ℚ
  mem_bytes : Nat
deriving DecidableEq

/-- One thermal sensor reading (`types::ThermalInfo`). -/
structure ThermalInfo where
  label : String
  temp_celsius : ℚ
  critical_celsius : Option ℚ
deriving DecidableEq

/-- Process-table sort order (`types::SortOrder`). -/
inductive SortOrder where
  | Cpu
  | Mem
deriving DecidableEq

/-- The per-collection snapshot (`types::SystemMetrics`). -/
structure SystemMetrics where
  cpu : List CpuCoreUsage
  ram : RamSwapUsage
  swap : RamSwapUsage
  network : NetworkStats
  disk_io : DiskIOStats
  processes : List ProcessInfo
  thermals : List ThermalInfo
deriving DecidableEq

/-- Rolling history for the sparkline widgets (`types::SparklineHistory`).
Each `VecDeque<u64>` is a `List Nat` whose head is the deque front (the
oldest sample); `push_back` appends at the tail, `pop_front` drops the head. -/
@[ext]
structure SparklineHistory where
  net_rx : List Nat
  net_tx : List Nat
  disk_read : List Nat
  disk_write : List Nat
  capacity : Nat
deriving DecidableEq

/-- Model of `SparklineHistory::new`: four empty deques with the given capacity. -/
def SparklineHistory.new (capacity : Nat) : SparklineHistory :=
  { net_rx := [], net_tx := [], disk_read := [], disk_write := [], capacity := capacity }

/-- Model of `SparklineHistory::push`: when `net_rx` is at (or beyond) capacity, pop
the front of all four deques, then push the new sample at the back of all
four. -/
def SparklineHistory.push (h : SparklineHistory) (net : NetworkStats) (disk : DiskIOStats) :
    SparklineHistory :=
  let h' :=
    if h.capacity ≤ h.net_rx.length then
      { h with net_rx := h.net_rx.tail, net_tx := h.net_tx.tail,
               disk_read := h.disk_read.tail, disk_write := h.disk_write.tail }
    else h
  { h' with net_rx := h'.net_rx ++ [net.received_bytes],
            net_tx := h'.net_tx ++ [net.transmitted_bytes],
            disk_read := h'.disk_read ++ [disk.read_bytes],
            disk_write := h'.disk_write ++ [disk.write_bytes] }

/-- One directory entry of `/sys/devices/virtual/thermal`, with the results
of reading its `type` and `temp` files (`none` = the read failed). -/
structure SysfsEntry where
  name : String
  typeFile : Option String
  tempFile : Option String
deriving DecidableEq

/-- One hardware-monitor component as reported by the sensors crate:
a label, an optional temperature and an optional critical threshold. -/
structure HwmonComponent where
  label : String
  temperature : Option ℚ
  critical : Option ℚ
deriving DecidableEq

/-- One process as enumerated by the OS on a full refresh: `u32` pid, name,
CPU usage, memory, and cumulative per-process disk read/write counters. -/
structure RawProcess where
  pid : Nat
  name : String
  cpu_usage : ℚ
  memory : Nat
  disk_read : Nat
  disk_written : Nat
deriving DecidableEq

/-- What the OS-stats source would report if queried at one `collect` call:
per-core CPU usages, memory/swap, per-interface network counters, the
process table, the sysfs thermal directory (`sysfsOk` = whether `read_dir`
succeeded) and the hardware-monitor components. -/
structure CollectEnv where
  cpus : List ℚ
  used_memory : Nat
  total_memory : Nat
  used_swap : Nat
  total_swap : Nat
  networks : List (Nat × Nat)
  processes : List RawProcess
  sysfsOk : Bool
  sysfsEntries : List SysfsEntry
  components : List HwmonComponent
deriving DecidableEq

/-- Two's-complement reinterpretation `u32 → i32` (`pid.as_u32() as i32`). -/
def toI32 (p : Nat) : Int :=
  let r := p % 4294967296
  if r < 2147483648 then (r : Int) else (r : Int) - 4294967296

/-- Whitespace trim on both ends, as `str::trim` (structural model over the
character list so that it evaluates). -/
def rustTrim (s : String) : String :=
  String.mk (((s.data.dropWhile Char.isWhitespace).reverse.dropWhile Char.isWhitespace).reverse)

/-- Model of `str::starts_with`, via the character list. -/
def strStartsWith (s p : String) : Bool :=
  p.data.isPrefixOf s.data

/-- Value of a nonempty all-digit character run, `none` otherwise. -/
def digitsVal? (l : List Char) : Option Nat :=
  if l ≠ [] ∧ l.all (fun c => c.isDigit) then
    some (l.foldl (fun n c => 10 * n + (c.toNat - 48)) 0)
  else none

/-- Discrete part of decimal parsing: optional sign, integer digits, optional
fractional digits, returned as (negative?, integer part, fraction digits
value, fraction digit count); `none` for anything else. -/
def parseDecimal? (cs : List Char) : Option (Bool × Nat × Nat × Nat) :=
  let neg : Bool := match cs with
    | '-' :: _ => true
    | _ => false
  let body : List Char := match cs with
    | '-' :: rest => rest
    | '+' :: rest => rest
    | _ => cs
  match body.splitOn '.' with
  | [intPart] => (digitsVal? intPart).map (fun n => (neg, n, 0, 0))
  | [intPart, fracPart] =>
    match digitsVal? intPart with
    | some ip =>
      if fracPart.all (fun c => c.isDigit) then
        some (neg, ip, fracPart.foldl (fun n c => 10 * n + (c.toNat - 48)) 0, fracPart.length)
      else none
    | none => none
  | _ => none

/-- Rust `str::parse::<f32>` modelled exactly over `ℚ` for plain decimal literals
(optional sign, digits, optional fractional digits); anything else — in
particular non-numeric text — is `none`. Exponents, infinities and binary
float rounding are outside the model: the sysfs `temp` files this is applied
to contain plain millidegree integers. -/
def parseF32 (s : String) : Option ℚ :=
  (parseDecimal? s.data).map (fun r =>
    let m : ℚ := (r.2.1 : ℚ) + (r.2.2.1 : ℚ) / (10 : ℚ) ^ r.2.2.2
    if r.1 then -m else m)

/-- Label of one sysfs thermal zone: the `type` file contents
(`unwrap_or_default`), trimmed. -/
def zoneLabel (e : SysfsEntry) : String :=
  rustTrim (e.typeFile.getD "")

/-- Temperature of one sysfs thermal zone: the `temp` file contents, trimmed,
parsed as a float and divided by 1000; `none` when the read or parse fails. -/
def zoneTemp (e : SysfsEntry) : Option ℚ :=
  (e.tempFile.bind (fun s => parseF32 (rustTrim s))).map (fun t => t / 1000)

/-- Loop body of the sysfs thermal-zone scan in `Collector::collect`: skip
entries not named `thermal_zone*`, skip zones whose temperature is
unavailable, otherwise append a `ThermalInfo` with no critical threshold. -/
def sysfsStep (acc : List ThermalInfo) (e : SysfsEntry) : List ThermalInfo :=
  if strStartsWith e.name "thermal_zone" then
    match zoneTemp e with
    | some t => acc ++ [{ label := zoneLabel e, temp_celsius := t, critical_celsius := none }]
    | none => acc
  else acc

/-- The thermal list built on a full refresh: sysfs thermal zones first (none
when `read_dir` failed), then every hardware-monitor component that reports a
temperature, with label, temperature and optional critical threshold. -/
def thermalsOf (env : CollectEnv) : List ThermalInfo :=
  (if env.sysfsOk then env.sysfsEntries.foldl sysfsStep [] else []) ++
    env.components.filterMap (fun c =>
      match c.temperature with
      | some t => some { label := c.label, temp_celsius := t, critical_celsius := c.critical }
      | none => none)

/-- The process list built on a full refresh: map each enumerated process to
`ProcessInfo` and sort by `cpu_percent` descending (`sort_by` with
`b.cpu_percent.partial_cmp(&a.cpu_percent)`); the order among equal CPU
values is unspecified by the spec and not relied upon. -/
def processesOf (env : CollectEnv) : List ProcessInfo :=
  List.insertionSort (fun a b => b.cpu_percent ≤ a.cpu_percent)
    (env.processes.map (fun p =>
      { pid := toI32 p.pid, name := p.name, cpu_percent := p.cpu_usage,
        mem_bytes := p.memory }))

/-- The host-wide disk I/O total built on a full refresh: the sums of the
per-process disk read/write counters. -/
def diskIOOf (env : CollectEnv) : DiskIOStats :=
  let t := env.processes.foldl (fun acc p => (acc.1 + p.disk_read, acc.2 + p.disk_written)) (0, 0)
  { read_bytes := t.1, write_bytes := t.2 }

/-- The per-core CPU list refreshed on every call (`sys.cpus()` enumerated). -/
def cpuOf (env : CollectEnv) : List CpuCoreUsage :=
  env.cpus.enum.map (fun p => { core_id := p.1, usage_percent := p.2 })

/-- The network totals refreshed on every call: received/transmitted summed
across all interfaces. -/
def networkOf (env : CollectEnv) : NetworkStats :=
  let t := env.networks.foldl (fun acc d => (acc.1 + d.1, acc.2 + d.2)) (0, 0)
  { received_bytes := t.1, transmitted_bytes := t.2 }

/-- Model of `collector::Collector`: the internal tick counter, the scan-rate divisor
`process_every`, and the caches filled on the last full refresh. -/
structure Collector where
  tick : Nat
  process_every : Nat
  last_disk_io : DiskIOStats
  last_processes : List ProcessInfo
  last_thermals : List ThermalInfo
deriving DecidableEq

/-- Model of `Collector::new`: tick 0, `process_every = 4`, zero/empty caches. -/
def Collector.new : Collector :=
  { tick := 0, process_every := 4,
    last_disk_io := { read_bytes := 0, write_bytes := 0 },
    last_processes := [], last_thermals := [] }

/-- Model of `Collector::collect`: cheap fields (CPU, RAM, swap, network) are taken
from the stats source on every call; `full = tick % process_every == 0` gates
the expensive fields (disk I/O, thermal list, process list), which are
recomputed and cached on a full tick and replayed from the caches otherwise;
the tick counter is incremented with wrapping `u32` addition. -/
def Collector.collect (c : Collector) (env : CollectEnv) : Collector × SystemMetrics :=
  let full : Bool := c.tick % c.process_every == 0
  let disk_io := if full then diskIOOf env else c.last_disk_io
  let thermals := if full then thermalsOf env else c.last_thermals
  let processes := if full then processesOf env else c.last_processes
  ({ tick := (c.tick + 1) % 4294967296, process_every := c.process_every,
     last_disk_io := disk_io, last_processes := processes, last_thermals := thermals },
   { cpu := cpuOf env,
     ram := { used := env.used_memory, total := env.total_memory },
     swap := { used := env.used_swap, total := env.total_swap },
     network := networkOf env,
     disk_io := disk_io, processes := processes, thermals := thermals })

/-- One recorded file-system side effect of an engine operation. -/
inductive Effect where
  | createDirAll (dir : String)
  | createFile (path : String) (ok : Bool)
  | writeLine (path : String) (line : String)
  | flush (path : String)
deriving DecidableEq

/-- The ambient inputs of one engine event: what the stats source would
report, the two renderings of `chrono::Local::now()` used by the code
(`%Y-%m-%d_%H-%M-%S` for filenames, `%Y-%m-%dT%H:%M:%S%.3f` for CSV rows),
and whether `File::create` would succeed for the snapshot and log paths. -/
structure Env where
  cenv : CollectEnv
  nowFile : String
  nowIso : String
  snapCreateOk : Bool
  logCreateOk : Bool
deriving DecidableEq

/-- One-decimal fixed-point rendering of a `ℚ`, modelling Rust's `{:.1}`
float formatting (round to nearest, ties to even) on the `ℚ` idealization of
`f32`. -/
def fmtFixed1 (q : ℚ) : String :=
  let t : ℚ := q * 10
  let d : Int := (t.den : Int)
  let fl : Int := t.num.fdiv d
  let r : Int := t.num - fl * d
  let n : Int :=
    if 2 * r < d then fl
    else if d < 2 * r then fl + 1
    else if fl % 2 = 0 then fl else fl + 1
  let a : Nat := n.natAbs
  (if n < 0 then "-" else "") ++ toString (a / 10) ++ "." ++ toString (a % 10)

/-- One CSV data row, `writeln!(w, "{},{},{},{:.1},{}", ts, pid, name,
cpu_percent, mem_bytes)`. -/
def csvRow (ts : String) (p : ProcessInfo) : String :=
  ts ++ "," ++ toString p.pid ++ "," ++ p.name ++ "," ++ fmtFixed1 p.cpu_percent ++ "," ++
    toString p.mem_bytes

/-- The CSV header row shared by snapshots and the continuous log. -/
def csvHeader : String :=
  "timestamp,pid,name,cpu_percent,mem_bytes"

/-- Model of `app::AppState`: current metrics, sort order, collector, history buffer,
log directory, the transient snapshot path with its countdown, and the
continuous-log handle (modelled by the open file's path) with its recorded
path. -/
structure AppState where
  metrics : SystemMetrics
  sort_order : SortOrder
  collector : Collector
  history : SparklineHistory
  log_dir : String
  snap_path : Option String
  snap_ttl : Nat
  log_writer : Option String
  log_path : Option String
deriving DecidableEq

/-- The `SCAN_PRESETS` table: ticks between process refreshes. -/
def SCAN_PRESETS : List Nat := [1, 2, 4, 8, 20]

/-- Model of `AppState::new`; `logDirEnv` is the `SYSMON_LOG_DIR` environment
variable, falling back to `/tmp/sysmon-tui`. -/
def AppState.new (logDirEnv : Option String) : AppState :=
  { metrics :=
      { cpu := [],
        ram := { used := 0, total := 0 },
        swap := { used := 0, total := 0 },
        network := { received_bytes := 0, transmitted_bytes := 0 },
        disk_io := { read_bytes := 0, write_bytes := 0 },
        processes := [], thermals := [] },
    sort_order := SortOrder.Cpu,
    collector := Collector.new,
    history := SparklineHistory.new 120,
    log_dir := logDirEnv.getD "/tmp/sysmon-tui",
    snap_path := none, snap_ttl := 0,
    log_writer := none, log_path := none }

/-- Model of `AppState::write_log`: when continuous logging is active, one CSV row per
process of the current metrics followed by a flush; no state change. -/
def AppState.write_log (s : AppState) (env : Env) : List Effect :=
  match s.log_writer with
  | some p =>
    (s.metrics.processes.map (fun pr => Effect.writeLine p (csvRow env.nowIso pr))) ++
      [Effect.flush p]
  | none => []

/-- Model of `AppState::update_metrics` (the Tick-event transition): collect, replace
the metrics, push the new network and disk-I/O counters into the history,
write the continuous log, then decrement the snapshot-path countdown and
clear the path when it reaches zero. -/
def AppState.update_metrics (s : AppState) (env : Env) : AppState × List Effect :=
  let r := s.collector.collect env.cenv
  let s1 := { s with metrics := r.2, collector := r.1,
                     history := s.history.push r.2.network r.2.disk_io }
  let eff := s1.write_log env
  let s2 :=
    if 0 < s1.snap_ttl then
      if s1.snap_ttl - 1 = 0 then { s1 with snap_ttl := s1.snap_ttl - 1, snap_path := none }
      else { s1 with snap_ttl := s1.snap_ttl - 1 }
    else s1
  (s2, eff)

/-- Model of `AppState::snapshot` (one-shot CSV dump): create the log directory
(result ignored), then try to create `snap-<ts>.csv`; on success write the
header and one row per process of the current metrics, flush, record the
path and reset the display countdown to 12; on failure change nothing. -/
def AppState.snapshot (s : AppState) (env : Env) : AppState × List Effect :=
  let filename := "snap-" ++ env.nowFile ++ ".csv"
  let path := s.log_dir ++ "/" ++ filename
  if env.snapCreateOk then
    ({ s with snap_path := some path, snap_ttl := 12 },
     [Effect.createDirAll s.log_dir, Effect.createFile path true,
      Effect.writeLine path csvHeader] ++
       (s.metrics.processes.map (fun pr => Effect.writeLine path (csvRow env.nowIso pr))) ++
       [Effect.flush path])
  else
    (s, [Effect.createDirAll s.log_dir, Effect.createFile path false])

/-- Model of `AppState::toggle_log`: when a log handle is open, drop it and clear the
recorded path; otherwise create the log directory (result ignored) and try
to create `sysmon-<ts>.csv` — on success write the header and record the
handle and path, on failure change nothing. -/
def AppState.toggle_log (s : AppState) (env : Env) : AppState × List Effect :=
  if s.log_writer.isSome then
    ({ s with log_writer := none, log_path := none }, [])
  else
    let filename := "sysmon-" ++ env.nowFile ++ ".csv"
    let path := s.log_dir ++ "/" ++ filename
    if env.logCreateOk then
      ({ s with log_writer := some path, log_path := some path },
       [Effect.createDirAll s.log_dir, Effect.createFile path true,
        Effect.writeLine path csvHeader])
    else
      (s, [Effect.createDirAll s.log_dir, Effect.createFile path false])

/-- The `AppState::scan_faster` preset search: the largest preset strictly below
the current value (the first hit when walking `SCAN_PRESETS` in reverse), or
the current value when there is none. -/
def scanFasterVal (cur : Nat) : Nat :=
  match SCAN_PRESETS.reverse.find? (fun p => decide (p < cur)) with
  | some p => p
  | none => cur

/-- The `AppState::scan_slower` preset search: the smallest preset strictly above
the current value (the first hit when walking `SCAN_PRESETS` forwards), or
the current value when there is none. -/
def scanSlowerVal (cur : Nat) : Nat :=
  match SCAN_PRESETS.find? (fun p => decide (cur < p)) with
  | some p => p
  | none => cur

/-- Model of `AppState::scan_faster`. -/
def AppState.scan_faster (s : AppState) : AppState :=
  { s with collector := { s.collector with
      process_every := scanFasterVal s.collector.process_every } }

/-- Model of `AppState::scan_slower`. -/
def AppState.scan_slower (s : AppState) : AppState :=
  { s with collector := { s.collector with
      process_every := scanSlowerVal s.collector.process_every } }

/-- The key codes the application can receive; codes other than characters
are only ever matched by the wildcard arm of `handle_input`. -/
inductive KeyCode where
  | Char (c : Char)
  | Enter
  | Esc
  | Backspace
  | Tab
  | Up
  | Down
  | Left
  | Right
  | F (n : Nat)
deriving DecidableEq

/-- Modifier flags carried by a key event; `handle_input` only ever tests the
Alt flag. -/
structure Modifiers where
  alt : Bool
  ctrl : Bool
  shift : Bool
deriving DecidableEq

/-- One keyboard event: key code plus modifier flags. -/
structure KeyEvent where
  code : KeyCode
  modifiers : Modifiers
deriving DecidableEq

/-- Model of `AppState::handle_input`, compiling the ordered Rust `match` arms:
`'c'|'C'` → sort by CPU; `'m'|'M'` → sort by memory; `'l'` with Alt →
toggle the continuous log; `'l'|'L'` (Alt not set for `'l'`) → one-shot
snapshot; `'['` / `']'` → scan-rate presets; everything else → no-op. -/
def AppState.handle_input (s : AppState) (env : Env) (key : KeyEvent) :
    AppState × List Effect :=
  match key.code with
  | KeyCode.Char c =>
    if c = 'c' ∨ c = 'C' then ({ s with sort_order := SortOrder.Cpu }, [])
    else if c = 'm' ∨ c = 'M' then ({ s with sort_order := SortOrder.Mem }, [])
    else if c = 'l' ∧ key.modifiers.alt then s.toggle_log env
    else if c = 'l' ∨ c = 'L' then s.snapshot env
    else if c = '[' then (s.scan_faster, [])
    else if c = ']' then (s.scan_slower, [])
    else (s, [])
  | _ => (s, [])

/-- Fold a list of pushes into a history buffer. -/
def pushAll (h : SparklineHistory) (l : List (NetworkStats × DiskIOStats)) : SparklineHistory :=
  l.foldl (fun h s => h.push s.1 s.2) h

/-- The last `C` elements of a list, in order. -/
def windowLast (C : Nat) (l : List Nat) : List Nat :=
  l.drop (l.length - C)

/-- Run a sequence of Tick events (one environment per tick). -/
def runTicks (envs : List Env) (s : AppState) : AppState :=
  envs.foldl (fun s e => (s.update_metrics e).1) s

/-- A zone whose `temp` cannot be read or parsed is skipped, otherwise it
yields label, millidegrees/1000 and no critical threshold; entries not named
`thermal_zone*` are skipped. -/
def zoneToThermal (e : SysfsEntry) : Option ThermalInfo :=
  if strStartsWith e.name "thermal_zone" then
    (zoneTemp e).map (fun t =>
      { label := zoneLabel e, temp_celsius := t, critical_celsius := none })
  else none

/-- A hardware-monitor component reporting no temperature is skipped,
otherwise it yields its label, temperature and optional critical
threshold. -/
def componentToThermal (c : HwmonComponent) : Option ThermalInfo :=
  match c.temperature with
  | some t => some { label := c.label, temp_celsius := t, critical_celsius := c.critical }
  | none => none

/-- A key event outside the documented keyboard surface: any non-character
key, or a character other than `c`, `C`, `m`, `M`, `l`, `L`, `[`, `]`, `q`. -/
def keyOutsideSurface (k : KeyEvent) : Prop :=
  match k.code with
  | KeyCode.Char c => c ∉ (['c', 'C', 'm', 'M', 'l', 'L', '[', ']', 'q'] : List Char)
  | _ => True

instance : DecidablePred keyOutsideSurface := by
  intro k
  unfold keyOutsideSurface
  match k.code with
  | KeyCode.Char c => exact inferInstanceAs (Decidable (c ∉ _))
  | KeyCode.Enter => exact inferInstanceAs (Decidable True)
  | KeyCode.Esc => exact inferInstanceAs (Decidable True)
  | KeyCode.Backspace => exact inferInstanceAs (Decidable True)
  | KeyCode.Tab => exact inferInstanceAs (Decidable True)
  | KeyCode.Up => exact inferInstanceAs (Decidable True)
  | KeyCode.Down => exact inferInstanceAs (Decidable True)
  | KeyCode.Left => exact inferInstanceAs (Decidable True)
  | KeyCode.Right => exact inferInstanceAs (Decidable True)
  | KeyCode.F n => exact inferInstanceAs (Decidable True)

/-- The history state reached after pushing `samples` into a fresh buffer of
capacity `C`: every deque is the `C`-bounded tail window of its own
component track. -/
def histOf (C : Nat) (samples : List (NetworkStats × DiskIOStats)) : SparklineHistory :=
  { net_rx := windowLast C (samples.map (fun a => a.1.received_bytes)),
    net_tx := windowLast C (samples.map (fun a => a.1.transmitted_bytes)),
    disk_read := windowLast C (samples.map (fun a => a.2.read_bytes)),
    disk_write := windowLast C (samples.map (fun a => a.2.write_bytes)),
    capacity := C }

/-- An OS environment reporting nothing at all: no cores, no interfaces, no
processes, no sensors. -/
def cenv0 : CollectEnv :=
  { cpus := [], used_memory := 0, total_memory := 0, used_swap := 0, total_swap := 0,
    networks := [], processes := [], sysfsOk := false, sysfsEntries := [], components := [] }

/-- A concrete event environment whose file creations succeed. -/
def env0 : Env :=
  { cenv := cenv0, nowFile := "2026-01-01_00-00-00", nowIso := "2026-01-01T00:00:00.000",
    snapCreateOk := true, logCreateOk := true }

/-- A concrete event environment whose file creations fail. -/
def envFail : Env :=
  { cenv := cenv0, nowFile := "2026-01-01_00-00-00", nowIso := "2026-01-01T00:00:00.000",
    snapCreateOk := false, logCreateOk := false }

/-- The freshly constructed application state (no `SYSMON_LOG_DIR` set). -/
def st0 : AppState := AppState.new none

/-- The state `st0` with an open continuous-log handle, as `toggle_log` leaves it. -/
def stLogging : AppState := (st0.toggle_log env0).1

/-- The three-sample push sequence of the spec's sliding-window scenario. -/
def samplesW : List (NetworkStats × DiskIOStats) :=
  [({ received_bytes := 100, transmitted_bytes := 10 }, { read_bytes := 1, write_bytes := 2 }),
   ({ received_bytes := 200, transmitted_bytes := 20 }, { read_bytes := 3, write_bytes := 4 }),
   ({ received_bytes := 300, transmitted_bytes := 30 }, { read_bytes := 5, write_bytes := 6 })]

/-- A concrete modifier set with only Alt held. -/
def altOnly : Modifiers := { alt := true, ctrl := false, shift := false }

/-- A concrete modifier set with nothing held. -/
def noMods : Modifiers := { alt := false, ctrl := false, shift := false }

/-! ## C7: a failed one-shot snapshot changes nothing -/

/-- C7: when the snapshot file cannot be created, the one-shot snapshot is
silently skipped — the function is total (no crash) and the whole engine
state, including the transient snapshot path, its countdown, and any active
continuous-logging state, is returned unchanged. -/
theorem snapshot_failure_keeps_state (s : AppState) (env : Env)
    (h : env.snapCreateOk = false) : (s.snapshot env).1 = s := by
  simp [AppState.snapshot, h]

theorem snapshot_failure_keeps_state_witness :
    (stLogging.snapshot envFail).1 = stLogging :=
  snapshot_failure_keeps_state stLogging envFail rfl

/-! ## C10: Alt plus uppercase L hits the snapshot arm, Alt+l the toggle -/

/-- C10: with Alt held, the uppercase character `L` does not match the
`Alt`-guarded lowercase-`l` arm and falls through to the one-shot snapshot
arm, while the lowercase `l` with Alt toggles the continuous log. -/
theorem alt_uppercase_L_takes_snapshot (s : AppState) (env : Env) (m : Modifiers)
    (halt : m.alt = true) :
    s.handle_input env { code := KeyCode.Char 'L', modifiers := m } = s.snapshot env ∧
    s.handle_input env { code := KeyCode.Char 'l', modifiers := m } = s.toggle_log env := by
  constructor <;> simp [AppState.handle_input, halt]

theorem alt_uppercase_L_takes_snapshot_witness :
    st0.handle_input env0 { code := KeyCode.Char 'L', modifiers := altOnly } =
      st0.snapshot env0 :=
  (alt_uppercase_L_takes_snapshot st0 env0 altOnly rfl).1

/-! ## C9: sort keys are pure state changes; unknown keys are no-ops -/

/-- C9: `c`/`C` set the sort order to CPU and `m`/`M` set it to memory,
changing nothing else and performing no I/O (empty effect trace), and any
key outside the documented surface leaves the whole state unchanged with no
I/O. -/
theorem sort_keys_pure_unknown_keys_noop (s : AppState) (env : Env) (m : Modifiers)
    (k : KeyEvent) :
    (s.handle_input env { code := KeyCode.Char 'c', modifiers := m } =
      ({ s with sort_order := SortOrder.Cpu }, [])) ∧
    (s.handle_input env { code := KeyCode.Char 'C', modifiers := m } =
      ({ s with sort_order := SortOrder.Cpu }, [])) ∧
    (s.handle_input env { code := KeyCode.Char 'm', modifiers := m } =
      ({ s with sort_order := SortOrder.Mem }, [])) ∧
    (s.handle_input env { code := KeyCode.Char 'M', modifiers := m } =
      ({ s with sort_order := SortOrder.Mem }, [])) ∧
    (keyOutsideSurface k → s.handle_input env k = (s, [])) := by
  refine ⟨by simp [AppState.handle_input], by simp [AppState.handle_input],
    by simp [AppState.handle_input], by simp [AppState.handle_input], ?_⟩
  intro hk
  obtain ⟨code, m'⟩ := k
  cases code with
  | Char c =>
    simp only [keyOutsideSurface, List.mem_cons, List.not_mem_nil, or_false] at hk
    push_neg at hk
    obtain ⟨h1, h2, h3, h4, h5, h6, h7, h8, h9⟩ := hk
    simp [AppState.handle_input, h1, h2, h3, h4, h5, h6, h7, h8]
  | Enter => simp [AppState.handle_input]
  | Esc => simp [AppState.handle_input]
  | Backspace => simp [AppState.handle_input]
  | Tab => simp [AppState.handle_input]
  | Up => simp [AppState.handle_input]
  | Down => simp [AppState.handle_input]
  | Left => simp [AppState.handle_input]
  | Right => simp [AppState.handle_input]
  | F n => simp [AppState.handle_input]

theorem sort_keys_pure_unknown_keys_noop_witness :
    st0.handle_input env0 { code := KeyCode.Char 'x', modifiers := noMods } = (st0, []) :=
  (sort_keys_pure_unknown_keys_noop st0 env0 noMods
    { code := KeyCode.Char 'x', modifiers := noMods }).2.2.2.2 (by decide)

/-! ## C6: the continuous-log toggle in pairs -/

/-- C6 (amended): provided every attempted log-file creation succeeds, two
consecutive toggles return the engine to its original logging-active status;
in particular, starting with logging inactive, two toggles leave logging
inactive with no log path recorded. (A failed creation makes that toggle a
no-op, so the pair law needs the success assumption; see the
counterexample.) -/
theorem log_toggle_pair_returns (s : AppState) (e1 e2 : Env)
    (h1 : e1.logCreateOk = true) (h2 : e2.logCreateOk = true) :
    (((s.toggle_log e1).1.toggle_log e2).1.log_writer.isSome = s.log_writer.isSome) ∧
    (s.log_writer = none →
      ((s.toggle_log e1).1.toggle_log e2).1.log_writer = none ∧
      ((s.toggle_log e1).1.toggle_log e2).1.log_path = none) := by
  by_cases hw : s.log_writer.isSome
  · constructor
    · simp [AppState.toggle_log, hw, h2]
    · intro hnone
      rw [hnone] at hw
      simp at hw
  · have hnone : s.log_writer = none := Option.not_isSome_iff_eq_none.mp hw
    constructor
    · simp [AppState.toggle_log, hnone, h1]
    · intro _
      simp [AppState.toggle_log, hnone, h1]

theorem log_toggle_pair_returns_witness :
    (((st0.toggle_log env0).1.toggle_log env0).1.log_writer = none) :=
  ((log_toggle_pair_returns st0 env0 env0 rfl rfl).2 rfl).1

/-- C6 counterexample: starting from the fresh (inactive) state, when the
first toggle's file creation fails and the second succeeds, two consecutive
toggles leave continuous logging ACTIVE (an open handle is recorded), so the
pair law as stated by the claim is false on the code. -/
theorem log_toggle_pair_cex :
    st0.log_writer = none ∧
    ((st0.toggle_log envFail).1.toggle_log env0).1.log_writer ≠ none := by
  constructor
  · rfl
  · intro h
    simp [st0, AppState.new, AppState.toggle_log, envFail, env0] at h

/-! ## C3: scan-rate preset navigation -/

/-- Projection of `scan_faster` onto the scan-rate field. -/
theorem scan_faster_pe (s : AppState) :
    s.scan_faster.collector.process_every = scanFasterVal s.collector.process_every := rfl

/-- Projection of `scan_slower` onto the scan-rate field. -/
theorem scan_slower_pe (s : AppState) :
    s.scan_slower.collector.process_every = scanSlowerVal s.collector.process_every := rfl

/-- Value table of the preset search functions on preset inputs. -/
theorem scan_val_facts (n : Nat) (h : n ∈ SCAN_PRESETS) :
    scanFasterVal n ∈ SCAN_PRESETS ∧ scanSlowerVal n ∈ SCAN_PRESETS ∧
    (n = 1 → scanFasterVal n = n) ∧
    (n ≠ 1 → scanFasterVal n < n ∧ ∀ q ∈ SCAN_PRESETS, q < n → q ≤ scanFasterVal n) ∧
    (n = 20 → scanSlowerVal n = n) ∧
    (n ≠ 20 → n < scanSlowerVal n ∧ ∀ q ∈ SCAN_PRESETS, n < q → scanSlowerVal n ≤ q) ∧
    (n ≠ 1 → scanSlowerVal (scanFasterVal n) = n) := by
  fin_cases h <;> decide

/-- C3 (amended): from any preset, `process_every` stays confined to
`{1,2,4,8,20}` under both operations; `scan_faster` moves to the next
smaller preset (strict decrease, and no preset lies between) and is a
complete no-op at 1; `scan_slower` moves to the next larger preset and is a
complete no-op at 20; and `faster` followed by `slower` returns to the
original preset at every preset EXCEPT the smallest (from 1, faster no-ops
and slower then yields 2; see the counterexample). -/
theorem scan_rate_preset_navigation (s : AppState)
    (h : s.collector.process_every ∈ SCAN_PRESETS) :
    (s.scan_faster.collector.process_every ∈ SCAN_PRESETS) ∧
    (s.scan_slower.collector.process_every ∈ SCAN_PRESETS) ∧
    (s.collector.process_every = 1 → s.scan_faster = s) ∧
    (s.collector.process_every ≠ 1 →
      s.scan_faster.collector.process_every < s.collector.process_every ∧
      ∀ q ∈ SCAN_PRESETS, q < s.collector.process_every →
        q ≤ s.scan_faster.collector.process_every) ∧
    (s.collector.process_every = 20 → s.scan_slower = s) ∧
    (s.collector.process_every ≠ 20 →
      s.collector.process_every < s.scan_slower.collector.process_every ∧
      ∀ q ∈ SCAN_PRESETS, s.collector.process_every < q →
        s.scan_slower.collector.process_every ≤ q) ∧
    (s.collector.process_every ≠ 1 →
      s.scan_faster.scan_slower.collector.process_every = s.collector.process_every) := by
  obtain ⟨hf1, hs1, hfid, hfdec, hsid, hsinc, hrt⟩ := scan_val_facts _ h
  refine ⟨?_, ?_, ?_, ?_, ?_, ?_, ?_⟩
  · rw [scan_faster_pe]; exact hf1
  · rw [scan_slower_pe]; exact hs1
  · intro h1
    have hval : scanFasterVal s.collector.process_every = s.collector.process_every :=
      hfid h1
    show { s with collector := { s.collector with
      process_every := scanFasterVal s.collector.process_every } } = s
    rw [hval]
  · intro h1
    rw [scan_faster_pe]
    exact hfdec h1
  · intro h20
    have hval : scanSlowerVal s.collector.process_every = s.collector.process_every :=
      hsid h20
    show { s with collector := { s.collector with
      process_every := scanSlowerVal s.collector.process_every } } = s
    rw [hval]
  · intro h20
    rw [scan_slower_pe]
    exact hsinc h20
  · intro h1
    rw [scan_slower_pe, scan_faster_pe]
    exact hrt h1

theorem scan_rate_preset_navigation_witness :
    st0.scan_faster.scan_slower.collector.process_every = st0.collector.process_every :=
  (scan_rate_preset_navigation st0 (by decide)).2.2.2.2.2.2 (by decide)

/-- C3 counterexample: the preset 1 is reachable (two `scan_faster` from the
initial 4), and from it `scan_faster` followed by `scan_slower` yields 2,
not the original preset — "repeated faster+slower returns to the original
preset" fails at the smallest preset. -/
theorem scan_roundtrip_at_min_cex :
    st0.scan_faster.scan_faster.collector.process_every = 1 ∧
    st0.scan_faster.scan_faster.scan_faster.scan_slower.collector.process_every = 2 := by
  decide

/-! ## C1: tiered-cadence collection -/

/-- C1: on a call where the internal tick counter (starting at 0 in
`Collector::new` and incremented wrapping on every call) is a multiple of
`process_every`, `collect` recomputes the disk-I/O totals, the process list
and the thermal list from the stats source and refills the caches; on every
other call it returns the cached values from the last full refresh verbatim
and leaves the caches untouched; the CPU, RAM/swap and network fields are
taken from the stats source on every call. -/
theorem collector_tiered_cadence (c : Collector) (env : CollectEnv)
    (hk : 0 < c.process_every) :
    ((c.collect env).2.cpu = cpuOf env) ∧
    ((c.collect env).2.ram = { used := env.used_memory, total := env.total_memory }) ∧
    ((c.collect env).2.swap = { used := env.used_swap, total := env.total_swap }) ∧
    ((c.collect env).2.network = networkOf env) ∧
    (c.tick % c.process_every = 0 →
      (c.collect env).2.disk_io = diskIOOf env ∧
      (c.collect env).2.processes = processesOf env ∧
      (c.collect env).2.thermals = thermalsOf env ∧
      (c.collect env).1.last_disk_io = diskIOOf env ∧
      (c.collect env).1.last_processes = processesOf env ∧
      (c.collect env).1.last_thermals = thermalsOf env) ∧
    (c.tick % c.process_every ≠ 0 →
      (c.collect env).2.disk_io = c.last_disk_io ∧
      (c.collect env).2.processes = c.last_processes ∧
      (c.collect env).2.thermals = c.last_thermals ∧
      (c.collect env).1.last_disk_io = c.last_disk_io ∧
      (c.collect env).1.last_processes = c.last_processes ∧
      (c.collect env).1.last_thermals = c.last_thermals) ∧
    ((c.collect env).1.tick = (c.tick + 1) % 4294967296) ∧
    ((c.collect env).1.process_every = c.process_every) ∧
    Collector.new.tick = 0 := by
  by_cases hfull : c.tick % c.process_every = 0 <;>
    simp [Collector.collect, Collector.new, hfull]

theorem collector_tiered_cadence_witness :
    0 < Collector.new.process_every ∧
    (Collector.new.collect cenv0).2.disk_io = diskIOOf cenv0 :=
  ⟨by decide, ((collector_tiered_cadence Collector.new cenv0 (by decide)).2.2.2.2.1 rfl).1⟩

/-! ## C4: the Tick-event transition -/

/-- C4: on a Tick event the engine collects, replaces the current metrics
with the result, advances the collector state, pushes the new snapshot's
cumulative network and disk-I/O counters into the history buffer, and — when
continuous logging is active on handle `p` — its effect trace is exactly one
CSV row per process of the new snapshot (schema
`timestamp,pid,name,cpu_percent,mem_bytes`, cpu to one decimal place, memory
as a raw integer, as `csvRow` spells out) followed by a flush; with logging
inactive the trace is empty. -/
theorem tick_event_effects (s : AppState) (env : Env) :
    ((s.update_metrics env).1.metrics = (s.collector.collect env.cenv).2) ∧
    ((s.update_metrics env).1.collector = (s.collector.collect env.cenv).1) ∧
    ((s.update_metrics env).1.history =
      s.history.push (s.collector.collect env.cenv).2.network
        (s.collector.collect env.cenv).2.disk_io) ∧
    (∀ p, s.log_writer = some p →
      (s.update_metrics env).2 =
        ((s.collector.collect env.cenv).2.processes.map
          (fun pr => Effect.writeLine p (csvRow env.nowIso pr))) ++ [Effect.flush p]) ∧
    (s.log_writer = none → (s.update_metrics env).2 = []) := by
  refine ⟨?_, ?_, ?_, ?_, ?_⟩
  · by_cases h1 : 0 < s.snap_ttl <;> by_cases h2 : s.snap_ttl - 1 = 0 <;>
      simp [AppState.update_metrics, h1, h2]
  · by_cases h1 : 0 < s.snap_ttl <;> by_cases h2 : s.snap_ttl - 1 = 0 <;>
      simp [AppState.update_metrics, h1, h2]
  · by_cases h1 : 0 < s.snap_ttl <;> by_cases h2 : s.snap_ttl - 1 = 0 <;>
      simp [AppState.update_metrics, h1, h2]
  · intro p hp
    simp [AppState.update_metrics, AppState.write_log, hp]
  · intro hp
    simp [AppState.update_metrics, AppState.write_log, hp]

theorem tick_event_effects_witness :
    (st0.update_metrics env0).2 = [] :=
  (tick_event_effects st0 env0).2.2.2.2 rfl

/-! ## C5: the snapshot-path countdown -/

/-- One Tick decrements the countdown (saturating at 0) and clears the path
exactly when the countdown steps from 1 to 0. -/
theorem update_metrics_snap (s : AppState) (env : Env) :
    (s.update_metrics env).1.snap_ttl = s.snap_ttl - 1 ∧
    (s.update_metrics env).1.snap_path = (if s.snap_ttl = 1 then none else s.snap_path) := by
  rcases Nat.eq_zero_or_pos s.snap_ttl with h | h
  · simp [AppState.update_metrics, h]
  · by_cases h1 : s.snap_ttl = 1
    · simp [AppState.update_metrics, h, h1]
    · have hne : ¬(s.snap_ttl - 1 = 0) := by omega
      simp [AppState.update_metrics, h, h1, hne]

/-- Behaviour of the snapshot path under a run of Ticks: while strictly
fewer Ticks than the countdown have run the path is untouched, and a run
whose length equals the (positive) countdown ends with the path cleared. -/
theorem runTicks_snap (envs : List Env) : ∀ s : AppState,
    (envs.length < s.snap_ttl →
      (runTicks envs s).snap_path = s.snap_path ∧
      (runTicks envs s).snap_ttl = s.snap_ttl - envs.length) ∧
    (envs.length = s.snap_ttl → 0 < envs.length →
      (runTicks envs s).snap_path = none) := by
  induction envs with
  | nil =>
    intro s
    refine ⟨fun _ => ⟨rfl, by simp [runTicks]⟩, fun h h0 => ?_⟩
    simp at h0
  | cons e rest ih =>
    intro s
    have hstep := update_metrics_snap s e
    have hrun : runTicks (e :: rest) s = runTicks rest (s.update_metrics e).1 := rfl
    have hlen : (e :: rest).length = rest.length + 1 := rfl
    constructor
    · intro hlt
      rw [hlen] at hlt
      have hne1 : s.snap_ttl ≠ 1 := by omega
      have hpath : (s.update_metrics e).1.snap_path = s.snap_path := by
        rw [hstep.2]; simp [hne1]
      have hlt' : rest.length < (s.update_metrics e).1.snap_ttl := by
        rw [hstep.1]; omega
      obtain ⟨hp, ht⟩ := (ih ((s.update_metrics e).1)).1 hlt'
      rw [hrun]
      refine ⟨by rw [hp, hpath], ?_⟩
      rw [ht, hstep.1, hlen]
      omega
    · intro heq hpos
      rw [hlen] at heq
      rcases Nat.eq_zero_or_pos rest.length with hr | hr
      · have hrest : rest = [] := List.length_eq_zero.mp hr
        subst hrest
        have h1 : s.snap_ttl = 1 := by omega
        rw [hrun]
        show (s.update_metrics e).1.snap_path = none
        rw [hstep.2]
        simp [h1]
      · rw [hrun]
        exact (ih ((s.update_metrics e).1)).2 (by rw [hstep.1]; omega) hr

/-- C5: a successful one-shot snapshot records the snapshot path and resets
the countdown to 12; the path then survives any run of fewer than 12
subsequent Tick events unchanged, and a run of exactly 12 Tick events ends
with the path cleared — the clearing happens exactly on the 12th Tick,
independent of the tick rate. -/
theorem snapshot_countdown (s : AppState) (env : Env) (envs : List Env)
    (hok : env.snapCreateOk = true) :
    ((s.snapshot env).1.snap_ttl = 12) ∧
    ((s.snapshot env).1.snap_path =
      some (s.log_dir ++ "/" ++ ("snap-" ++ env.nowFile ++ ".csv"))) ∧
    (envs.length < 12 →
      (runTicks envs (s.snapshot env).1).snap_path =
        some (s.log_dir ++ "/" ++ ("snap-" ++ env.nowFile ++ ".csv"))) ∧
    (envs.length = 12 → (runTicks envs (s.snapshot env).1).snap_path = none) := by
  have h1 : (s.snapshot env).1.snap_ttl = 12 := by simp [AppState.snapshot, hok]
  have h2 : (s.snapshot env).1.snap_path =
      some (s.log_dir ++ "/" ++ ("snap-" ++ env.nowFile ++ ".csv")) := by
    simp [AppState.snapshot, hok]
  refine ⟨h1, h2, ?_, ?_⟩
  · intro hlt
    have hr := (runTicks_snap envs ((s.snapshot env).1)).1 (by rw [h1]; exact hlt)
    rw [hr.1, h2]
  · intro heq
    exact (runTicks_snap envs ((s.snapshot env).1)).2 (by rw [h1]; exact heq) (by omega)

theorem snapshot_countdown_witness :
    (runTicks (List.replicate 12 env0) ((st0.snapshot env0).1)).snap_path = none :=
  (snapshot_countdown st0 env0 (List.replicate 12 env0) rfl).2.2.2 (by simp)

/-! ## C2: the sliding-window property of the history buffer -/

/-- Length of a tail window. -/
theorem windowLast_length (C : Nat) (l : List Nat) :
    (windowLast C l).length = l.length - (l.length - C) := by
  simp [windowLast]

/-- Appending to a full window drops its head. -/
theorem windowLast_snoc_big (C : Nat) (hC : 1 ≤ C) (l : List Nat) (x : Nat)
    (h : C ≤ l.length) :
    (windowLast C l).tail ++ [x] = windowLast C (l ++ [x]) := by
  simp only [windowLast, List.tail_drop, List.length_append, List.length_singleton]
  rw [List.drop_append_of_le_length (by omega)]
  have harg : l.length - C + 1 = l.length + 1 - C := by omega
  rw [harg]

/-- Appending below capacity just appends. -/
theorem windowLast_snoc_small (C : Nat) (l : List Nat) (x : Nat) (h : l.length < C) :
    windowLast C l ++ [x] = windowLast C (l ++ [x]) := by
  simp only [windowLast, List.length_append, List.length_singleton]
  rw [Nat.sub_eq_zero_of_le (le_of_lt h), Nat.sub_eq_zero_of_le (by omega)]
  simp

/-- The fields of a push on a buffer at capacity. -/
theorem push_fields_full (h : SparklineHistory) (net : NetworkStats) (disk : DiskIOStats)
    (hcond : h.capacity ≤ h.net_rx.length) :
    h.push net disk =
      { h with net_rx := h.net_rx.tail ++ [net.received_bytes],
               net_tx := h.net_tx.tail ++ [net.transmitted_bytes],
               disk_read := h.disk_read.tail ++ [disk.read_bytes],
               disk_write := h.disk_write.tail ++ [disk.write_bytes] } := by
  simp [SparklineHistory.push, hcond]

/-- The fields of a push on a buffer below capacity. -/
theorem push_fields_small (h : SparklineHistory) (net : NetworkStats) (disk : DiskIOStats)
    (hcond : ¬(h.capacity ≤ h.net_rx.length)) :
    h.push net disk =
      { h with net_rx := h.net_rx ++ [net.received_bytes],
               net_tx := h.net_tx ++ [net.transmitted_bytes],
               disk_read := h.disk_read ++ [disk.read_bytes],
               disk_write := h.disk_write ++ [disk.write_bytes] } := by
  simp [SparklineHistory.push, hcond]

/-- One push on a window state is the window state of one more sample. -/
theorem push_histOf (C : Nat) (hC : 1 ≤ C) (p : List (NetworkStats × DiskIOStats))
    (n : NetworkStats) (d : DiskIOStats) :
    (histOf C p).push n d = histOf C (p ++ [(n, d)]) := by
  have hmap : ∀ f : NetworkStats × DiskIOStats → Nat,
      (p ++ [(n, d)]).map f = p.map f ++ [f (n, d)] := by
    intro f; simp
  by_cases h : C ≤ p.length
  · have hcond : (histOf C p).capacity ≤ (histOf C p).net_rx.length := by
      simp only [histOf, windowLast_length, List.length_map]
      omega
    rw [push_fields_full _ _ _ hcond]
    simp only [histOf, SparklineHistory.mk.injEq, hmap]
    refine ⟨?_, ?_, ?_, ?_, trivial⟩ <;>
      exact windowLast_snoc_big C hC _ _ (by simpa using h)
  · have hcond : ¬((histOf C p).capacity ≤ (histOf C p).net_rx.length) := by
      simp only [histOf, windowLast_length, List.length_map]
      omega
    rw [push_fields_small _ _ _ hcond]
    simp only [histOf, SparklineHistory.mk.injEq, hmap]
    refine ⟨?_, ?_, ?_, ?_, trivial⟩ <;>
      exact windowLast_snoc_small C _ _ (by simpa using h)

/-- Folding pushes over a window state accumulates the samples. -/
theorem pushAll_histOf (C : Nat) (hC : 1 ≤ C) (l : List (NetworkStats × DiskIOStats)) :
    ∀ p, pushAll (histOf C p) l = histOf C (p ++ l) := by
  induction l with
  | nil => intro p; simp [pushAll]
  | cons a t ih =>
    intro p
    have h1 : pushAll (histOf C p) (a :: t) = pushAll ((histOf C p).push a.1 a.2) t := rfl
    rw [h1, push_histOf C hC p a.1 a.2, ih (p ++ [(a.1, a.2)])]
    simp

/-- A fresh buffer is the window state of no samples. -/
theorem new_histOf (C : Nat) : SparklineHistory.new C = histOf C [] := by
  simp [SparklineHistory.new, histOf, windowLast]

/-- The state after any push sequence on a fresh buffer is its window state. -/
theorem pushAll_new_eq_histOf (C : Nat) (hC : 1 ≤ C)
    (samples : List (NetworkStats × DiskIOStats)) :
    pushAll (SparklineHistory.new C) samples = histOf C samples := by
  rw [new_histOf C]
  have := pushAll_histOf C hC samples []
  simpa using this

/-- C2 (amended): for every capacity `C ≥ 1` and every push sequence applied
to a fresh buffer, each of the four sequences is exactly the window of the
last `C` pushed samples of its own track, in push order; all four lengths
are equal and the common length is at most `C`, and this invariant holds not
only at the end but after every prefix of the push sequence; and whenever a
buffer is at capacity, one further push evicts the front (oldest) element of
all four deques simultaneously, never of only some. For `C = 0`, the code
keeps one element instead (see the counterexample), so the claim's universal
quantification over capacities must exclude 0. -/
theorem history_sliding_window (C : Nat) (hC : 1 ≤ C)
    (samples : List (NetworkStats × DiskIOStats)) :
    ((pushAll (SparklineHistory.new C) samples).net_rx =
      windowLast C (samples.map (fun a => a.1.received_bytes))) ∧
    ((pushAll (SparklineHistory.new C) samples).net_tx =
      windowLast C (samples.map (fun a => a.1.transmitted_bytes))) ∧
    ((pushAll (SparklineHistory.new C) samples).disk_read =
      windowLast C (samples.map (fun a => a.2.read_bytes))) ∧
    ((pushAll (SparklineHistory.new C) samples).disk_write =
      windowLast C (samples.map (fun a => a.2.write_bytes))) ∧
    ((pushAll (SparklineHistory.new C) samples).net_rx.length =
      (pushAll (SparklineHistory.new C) samples).net_tx.length) ∧
    ((pushAll (SparklineHistory.new C) samples).net_tx.length =
      (pushAll (SparklineHistory.new C) samples).disk_read.length) ∧
    ((pushAll (SparklineHistory.new C) samples).disk_read.length =
      (pushAll (SparklineHistory.new C) samples).disk_write.length) ∧
    ((pushAll (SparklineHistory.new C) samples).net_rx.length ≤ C) ∧
    (∀ l1 l2, samples = l1 ++ l2 →
      ((pushAll (SparklineHistory.new C) l1).net_rx.length =
        (pushAll (SparklineHistory.new C) l1).net_tx.length) ∧
      ((pushAll (SparklineHistory.new C) l1).net_tx.length =
        (pushAll (SparklineHistory.new C) l1).disk_read.length) ∧
      ((pushAll (SparklineHistory.new C) l1).disk_read.length =
        (pushAll (SparklineHistory.new C) l1).disk_write.length) ∧
      ((pushAll (SparklineHistory.new C) l1).net_rx.length ≤ C)) ∧
    (∀ (h : SparklineHistory) (net : NetworkStats) (disk : DiskIOStats),
      h.capacity ≤ h.net_rx.length →
      (h.push net disk).net_rx = h.net_rx.tail ++ [net.received_bytes] ∧
      (h.push net disk).net_tx = h.net_tx.tail ++ [net.transmitted_bytes] ∧
      (h.push net disk).disk_read = h.disk_read.tail ++ [disk.read_bytes] ∧
      (h.push net disk).disk_write = h.disk_write.tail ++ [disk.write_bytes]) := by
  have hmain := pushAll_new_eq_histOf C hC samples
  refine ⟨?_, ?_, ?_, ?_, ?_, ?_, ?_, ?_, ?_, ?_⟩
  · rw [hmain]
    rfl
  · rw [hmain]
    rfl
  · rw [hmain]
    rfl
  · rw [hmain]
    rfl
  · rw [hmain]
    simp [histOf, windowLast_length, List.length_map]
  · rw [hmain]
    simp [histOf, windowLast_length, List.length_map]
  · rw [hmain]
    simp [histOf, windowLast_length, List.length_map]
  · rw [hmain]
    simp [histOf, windowLast_length, List.length_map]
    omega
  · intro l1 l2 hsplit
    have h1 := pushAll_new_eq_histOf C hC l1
    rw [h1]
    refine ⟨?_, ?_, ?_, ?_⟩ <;>
      · simp [histOf, windowLast_length, List.length_map]
        try omega
  · intro h net disk hcap
    rw [push_fields_full h net disk hcap]
    exact ⟨rfl, rfl, rfl, rfl⟩

theorem history_sliding_window_witness :
    (pushAll (SparklineHistory.new 2) samplesW).net_rx = [200, 300] :=
  (history_sliding_window 2 (by decide) samplesW).1

/-- C2 counterexample: with capacity 0 a single push leaves the buffer
holding one element, so "length always ≤ C for every capacity C" is false on
the code at `C = 0`. -/
theorem history_capacity_zero_cex :
    ¬(((SparklineHistory.new 0).push { received_bytes := 0, transmitted_bytes := 0 }
        { read_bytes := 0, write_bytes := 0 }).net_rx.length ≤ 0) := by
  decide

/-! ## C8: thermal-zone reading and the thermal list -/

/-- The sysfs scan loop collects exactly the zones `zoneToThermal` accepts,
in directory order, after whatever was already accumulated. -/
theorem foldl_sysfsStep (l : List SysfsEntry) :
    ∀ acc, l.foldl sysfsStep acc = acc ++ l.filterMap zoneToThermal := by
  induction l with
  | nil => intro acc; simp
  | cons e t ih =>
    intro acc
    rw [List.foldl_cons, ih (sysfsStep acc e), List.filterMap_cons]
    by_cases h : strStartsWith e.name "thermal_zone" = true
    · cases hz : zoneTemp e with
      | none => simp [sysfsStep, zoneToThermal, h, hz]
      | some v => simp [sysfsStep, zoneToThermal, h, hz]
    · simp [sysfsStep, zoneToThermal, h]

/-- C8: the thermal list of a full refresh is the concatenation of the sysfs
zones (skipping entries not named `thermal_zone*` and zones whose temp file
is unreadable or non-numeric, each accepted zone carrying the trimmed label,
the millidegree value divided by 1000, and no critical threshold) followed
by the hardware-monitor components (carrying label, temperature and optional
critical threshold, skipping components reporting no temperature); a zone
whose temp file reads `45231` yields exactly 45231/1000 ≈ 45.231 °C. -/
theorem thermal_collection_characterized :
    (∀ env : CollectEnv, thermalsOf env =
      (if env.sysfsOk then env.sysfsEntries.filterMap zoneToThermal else []) ++
        env.components.filterMap componentToThermal) ∧
    (zoneToThermal
        { name := "thermal_zone0", typeFile := some "x86_pkg_temp\n",
          tempFile := some "45231\n" } =
      some { label := "x86_pkg_temp", temp_celsius := 45231 / 1000,
             critical_celsius := none }) ∧
    (zoneToThermal
        { name := "thermal_zone1", typeFile := some "acpitz\n",
          tempFile := none } = none) ∧
    (zoneToThermal
        { name := "thermal_zone2", typeFile := some "acpitz\n",
          tempFile := some "not-a-number\n" } = none) ∧
    (∀ (l : String) (cr : Option ℚ),
      componentToThermal { label := l, temperature := none, critical := cr } = none) := by
  refine ⟨?_, ?_, ?_, ?_, ?_⟩
  · intro env
    by_cases h : env.sysfsOk <;>
      · simp [thermalsOf, h, foldl_sysfsStep]
        rfl
  · have htrim : rustTrim "45231\n" = "45231" := by decide
    have hpd : parseDecimal? ("45231".data) = some (false, 45231, 0, 0) := by decide
    have hp : parseF32 "45231" = some (45231 : ℚ) := by
      simp only [parseF32, hpd, Option.map_some']
      norm_num
    have hlab : rustTrim "x86_pkg_temp\n" = "x86_pkg_temp" := by decide
    have hstart : strStartsWith "thermal_zone0" "thermal_zone" = true := by decide
    simp [zoneToThermal, zoneTemp, zoneLabel, hstart, htrim, hp, hlab]
  · decide
  · decide
  · intro l cr
    simp [componentToThermal]
